import Mathlib

/-!
Verification of the touch-slider gesture/physics core (repository `Slider`).

The repository contains three variant implementations of the same design:
`src/TouchSlider.js` (namespace `TouchSliderJS` below), `src/slider.js`
(namespace `SliderJS`), and `src/unnamed/part_000` (namespace `Part000`).
Each Lean definition is a direct shallow embedding of the correspondingly
named JavaScript function; pixel positions, timestamps and velocities are
modelled as rationals where the source only adds, subtracts, multiplies,
divides and compares, and as reals where the source calls `Math.pow` with a
fractional exponent or `Math.atan2`.
-/

namespace TouchSliderJS

/-- Embedding of `TouchSlider.js` `calculateVelocity()`: a history entry is a
`(position, timestamp)` pair; the method filters the history to the trailing
100 ms window relative to `now`, returns 0 when fewer than two samples remain
or the elapsed time is zero, and otherwise returns
`(last.x - first.x) / (last.time - first.time)`. -/
def calculateVelocity (history : List (ℚ × ℚ)) (now : ℚ) : ℚ :=
  let recent := history.filter (fun p => now - p.2 ≤ 100)
  if recent.length < 2 then 0
  else
    let firstPoint := recent.head?.getD (0, 0)
    let lastPoint := recent.getLast?.getD (0, 0)
    let deltaTime := lastPoint.2 - firstPoint.2
    if deltaTime = 0 then 0
    else (lastPoint.1 - firstPoint.1) / deltaTime

end TouchSliderJS

namespace SliderJS

/-- Embedding of `slider.js` `trackVelocity(x)`: pushes `(x, now)` onto
`state.positions` and then keeps only the samples recorded strictly less than
100 ms before `now`. -/
def trackVelocity (positions : List (ℚ × ℚ)) (x now : ℚ) : List (ℚ × ℚ) :=
  (positions ++ [(x, now)]).filter (fun p => now - p.2 < 100)

/-- Embedding of `slider.js` `calculateVelocity()`: no re-filtering (the
window was enforced by `trackVelocity`); 0 when fewer than two samples or the
elapsed time is zero, else `(last.x - first.x) / dt`. -/
def calculateVelocity (positions : List (ℚ × ℚ)) : ℚ :=
  if positions.length < 2 then 0
  else
    let first := positions.head?.getD (0, 0)
    let last := positions.getLast?.getD (0, 0)
    let dt := last.2 - first.2
    if dt = 0 then 0
    else (last.1 - first.1) / dt

end SliderJS

/-- Helper: the `getLast?.getD` of a list presented as `first :: mid ++ [last]`
is `last`, and its `head?.getD` is `first`. -/
theorem headGetLast_of_decomp (first last : ℚ × ℚ) (mid : List (ℚ × ℚ)) :
    (first :: (mid ++ [last])).head?.getD (0, 0) = first ∧
    (first :: (mid ++ [last])).getLast?.getD (0, 0) = last := by
  refine ⟨rfl, ?_⟩
  have h : (first :: (mid ++ [last])) = (first :: mid) ++ [last] := by simp
  rw [h, List.getLast?_concat]
  rfl

/-- C1: For every drag session, the velocity estimator returns 0 when fewer
than two samples remain in the trailing window or the elapsed time between the
first and last retained sample is zero; otherwise it returns
`(last.position - first.position) / (last.timestamp - first.timestamp)` over
the retained window.  In particular, for samples `{(0,0),(10,50),(20,100)}`
(position, ms) under a 100 ms window it returns `0.2` px/ms — both in the
`TouchSlider.js` estimator (all three samples retained, `20/100 = 1/5`) and in
the `slider.js` record-then-estimate pipeline (the sample at `t = 0` is
evicted, `(20-10)/(100-50) = 1/5`). -/
theorem calculateVelocity_window_correct :
    (∀ (history : List (ℚ × ℚ)) (now : ℚ),
      (history.filter (fun p => now - p.2 ≤ 100)).length < 2 →
        TouchSliderJS.calculateVelocity history now = 0) ∧
    (∀ (history : List (ℚ × ℚ)) (now : ℚ) (first last : ℚ × ℚ)
        (mid : List (ℚ × ℚ)),
      history.filter (fun p => now - p.2 ≤ 100) = first :: (mid ++ [last]) →
        (last.2 - first.2 = 0 → TouchSliderJS.calculateVelocity history now = 0) ∧
        (last.2 - first.2 ≠ 0 →
          TouchSliderJS.calculateVelocity history now =
            (last.1 - first.1) / (last.2 - first.2))) ∧
    TouchSliderJS.calculateVelocity [(0, 0), (10, 50), (20, 100)] 100 = 1/5 ∧
    SliderJS.calculateVelocity
      (SliderJS.trackVelocity (SliderJS.trackVelocity
        (SliderJS.trackVelocity [] 0 0) 10 50) 20 100) = 1/5 := by
  refine ⟨?_, ?_,
    by norm_num [TouchSliderJS.calculateVelocity, List.filter],
    by norm_num [SliderJS.calculateVelocity, SliderJS.trackVelocity, List.filter]⟩
  · intro history now hlt
    simp only [TouchSliderJS.calculateVelocity]
    rw [if_pos hlt]
  · intro history now first last mid hdec
    have hlen : ¬ (first :: (mid ++ [last])).length < 2 := by
      simp only [List.length_cons, List.length_append, List.length_singleton]
      omega
    have hfirst := (headGetLast_of_decomp first last mid).1
    have hlast := (headGetLast_of_decomp first last mid).2
    constructor
    · intro hdt
      simp only [TouchSliderJS.calculateVelocity, hdec, hfirst, hlast]
      rw [if_neg hlen, if_pos hdt]
    · intro hdt
      simp only [TouchSliderJS.calculateVelocity, hdec, hfirst, hlast]
      rw [if_neg hlen, if_neg hdt]

/-- Witness for C1: the general window rule applied at the concrete sample set
`{(0,0),(10,50),(20,100)}` with `now = 100` (all samples retained) forces the
estimate `(20-0)/(100-0) = 1/5 = 0.2` px/ms. -/
theorem calculateVelocity_window_correct_witness :
    TouchSliderJS.calculateVelocity [(0, 0), (10, 50), (20, 100)] 100 =
      ((20 : ℚ) - 0) / (100 - 0) := by
  have h := (calculateVelocity_window_correct.2.1
    [(0, 0), (10, 50), (20, 100)] 100 (0, 0) (20, 100) [(10, 50)]
    (by norm_num [List.filter])).2 (by norm_num)
  simpa using h

namespace Part000

/-- Embedding of the scan loop inside `part_000` `snapToNearest`: starting from
`best = slidesGrid[0]` at index 0, walk the remaining grid entries (`i` is the
index of the head of `ps` in the full grid) and replace the best entry exactly
when the distance to the search position strictly decreases, so the first
entry wins ties. -/
def nearestGo (s : ℚ) : List ℚ → ℚ → ℕ → ℕ → ℚ × ℕ
  | [], best, bestIdx, _ => (best, bestIdx)
  | p :: ps, best, bestIdx, i =>
    if |s - p| < |s - best| then nearestGo s ps p i (i + 1)
    else nearestGo s ps best bestIdx (i + 1)

/-- Embedding of `part_000` `snapToNearest(targetPosition)` (the `slider.js`
version is identical with the search position fixed to the current translate):
`closest` starts at `slidesGrid[0]` (JavaScript `undefined` when the grid is
empty, modelled as `none`), the linear scan updates it on strictly smaller
distance, and the result is clamped by `if (closest > minTranslate)` then
`if (closest < maxTranslate)`. Returns the animation target and slide index. -/
def snapToNearest (grid : List ℚ) (minTranslate maxTranslate searchPos : ℚ) :
    Option (ℚ × ℕ) :=
  match grid with
  | [] => none
  | g :: gs =>
    let r := nearestGo searchPos gs g 0 1
    let c1 := if r.1 > minTranslate then minTranslate else r.1
    let c2 := if c1 < maxTranslate then maxTranslate else c1
    some (c2, r.2)

/-- Helper: unfolding equation for the scan loop when the new entry strictly
improves. -/
theorem nearestGo_cons_lt (s p : ℚ) (ps : List ℚ) (best : ℚ) (bestIdx i : ℕ)
    (h : |s - p| < |s - best|) :
    nearestGo s (p :: ps) best bestIdx i = nearestGo s ps p i (i + 1) := by
  simp [nearestGo, h]

/-- Helper: unfolding equation for the scan loop when the new entry does not
strictly improve (the earlier best is kept, so the first entry wins ties). -/
theorem nearestGo_cons_ge (s p : ℚ) (ps : List ℚ) (best : ℚ) (bestIdx i : ℕ)
    (h : ¬ |s - p| < |s - best|) :
    nearestGo s (p :: ps) best bestIdx i = nearestGo s ps best bestIdx (i + 1) := by
  simp [nearestGo, h]

/-- Helper: full characterisation of the scan loop. The result either is the
initial best pair unchanged, or is a later entry (at absolute index `i + j`)
that strictly improves on the initial best and strictly beats every entry
scanned before it; in both cases it is a minimiser over the scanned entries. -/
theorem nearestGo_spec (s : ℚ) (ps : List ℚ) : ∀ (best : ℚ) (bestIdx i : ℕ),
    (|s - (nearestGo s ps best bestIdx i).1| ≤ |s - best| ∧
      ∀ p ∈ ps, |s - (nearestGo s ps best bestIdx i).1| ≤ |s - p|) ∧
    (nearestGo s ps best bestIdx i = (best, bestIdx) ∨
      ∃ j, ∃ hj : j < ps.length,
        (nearestGo s ps best bestIdx i).1 = ps.get ⟨j, hj⟩ ∧
        (nearestGo s ps best bestIdx i).2 = i + j ∧
        |s - (nearestGo s ps best bestIdx i).1| < |s - best| ∧
        ∀ k, ∀ hk : k < j,
          |s - ps.get ⟨k, hk.trans hj⟩| > |s - (nearestGo s ps best bestIdx i).1|) := by
  induction ps with
  | nil =>
    intro best bestIdx i
    exact ⟨⟨le_refl _, by simp⟩, Or.inl rfl⟩
  | cons p ps ih =>
    intro best bestIdx i
    by_cases hlt : |s - p| < |s - best|
    · rw [nearestGo_cons_lt s p ps best bestIdx i hlt]
      obtain ⟨⟨hle, hmem⟩, hcase⟩ := ih p i (i + 1)
      refine ⟨⟨le_of_lt (lt_of_le_of_lt hle hlt), ?_⟩, ?_⟩
      · intro q hq
        rcases List.mem_cons.1 hq with h | h
        · exact h ▸ hle
        · exact hmem q h
      · rcases hcase with heq | ⟨j, hj, h1, h2, h3, h4⟩
        · refine Or.inr ⟨0, by simp, ?_, ?_, ?_, ?_⟩
          · rw [heq]; simp
          · rw [heq]; simp
          · rw [heq]; exact hlt
          · intro k hk; exact absurd hk (Nat.not_lt_zero k)
        · refine Or.inr ⟨j + 1, Nat.succ_lt_succ hj, ?_, ?_, ?_, ?_⟩
          · rw [h1]; simp
          · rw [h2]; omega
          · exact lt_trans h3 hlt
          · intro k hk
            cases k with
            | zero => exact h3
            | succ n => exact h4 n (Nat.lt_of_succ_lt_succ hk)
    · rw [nearestGo_cons_ge s p ps best bestIdx i hlt]
      obtain ⟨⟨hle, hmem⟩, hcase⟩ := ih best bestIdx (i + 1)
      refine ⟨⟨hle, ?_⟩, ?_⟩
      · intro q hq
        rcases List.mem_cons.1 hq with h | h
        · exact h ▸ le_trans hle (le_of_not_lt hlt)
        · exact hmem q h
      · rcases hcase with heq | ⟨j, hj, h1, h2, h3, h4⟩
        · exact Or.inl heq
        · refine Or.inr ⟨j + 1, Nat.succ_lt_succ hj, ?_, ?_, h3, ?_⟩
          · rw [h1]; simp
          · rw [h2]; omega
          · intro k hk
            cases k with
            | zero => exact lt_of_lt_of_le h3 (le_of_not_lt hlt)
            | succ n => exact h4 n (Nat.lt_of_succ_lt_succ hk)

end Part000

/-- Helper: the sequential clamp `if (closest > minTranslate) closest = minTranslate;
if (closest < maxTranslate) closest = maxTranslate` lands in `[maxT, minT]`
whenever `maxT ≤ minT`. -/
theorem clampSeq_mem (minT maxT x : ℚ) (hb : maxT ≤ minT) :
    maxT ≤ (if (if x > minT then minT else x) < maxT then maxT
            else (if x > minT then minT else x)) ∧
    (if (if x > minT then minT else x) < maxT then maxT
     else (if x > minT then minT else x)) ≤ minT := by
  by_cases hc1 : x > minT
  · rw [if_pos hc1, if_neg (not_lt.2 hb)]
    exact ⟨hb, le_refl _⟩
  · rw [if_neg hc1]
    by_cases hc2 : x < maxT
    · rw [if_pos hc2]; exact ⟨le_refl _, hb⟩
    · rw [if_neg hc2]; exact ⟨not_lt.1 hc2, not_lt.1 hc1⟩

/-- Helper: the sequential clamp is the identity on values already inside
`[maxT, minT]`. -/
theorem clampSeq_id (minT maxT x : ℚ) (h1 : maxT ≤ x) (h2 : x ≤ minT) :
    (if (if x > minT then minT else x) < maxT then maxT
     else (if x > minT then minT else x)) = x := by
  rw [if_neg (not_lt.2 h2), if_neg (not_lt.2 h1)]

/-- C2: For every non-empty slide grid and every finite search position,
nearest-slide selection scans the grid linearly, picks the entry minimising
`|searchPos - gridOffset|` with the first entry winning ties (every earlier
entry is strictly farther), and the returned target offset lies within
`[maxTranslate, minTranslate]` (given the bounds invariant `maxT ≤ minT`);
when the picked entry is itself in bounds it is returned unchanged.  In
particular, with grid `[0, -300, -600]` and bounds `min = 0`, `max = -600`, a
search at projected position `-620` yields target offset `-600` at slide
index 2, not beyond. -/
theorem snapToNearest_clamped_argmin :
    (∀ (g : ℚ) (gs : List ℚ) (minT maxT s : ℚ), maxT ≤ minT →
      ∃ c i, Part000.snapToNearest (g :: gs) minT maxT s = some (c, i) ∧
        maxT ≤ c ∧ c ≤ minT ∧ i < (g :: gs).length ∧
        (∀ g' ∈ g :: gs, |s - (g :: gs).getD i 0| ≤ |s - g'|) ∧
        (∀ k, k < i → |s - (g :: gs).getD k 0| > |s - (g :: gs).getD i 0|) ∧
        (maxT ≤ (g :: gs).getD i 0 → (g :: gs).getD i 0 ≤ minT →
          c = (g :: gs).getD i 0)) ∧
    Part000.snapToNearest [0, -300, -600] 0 (-600) (-620) = some (-600, 2) := by
  constructor
  · intro g gs minT maxT s hb
    obtain ⟨⟨hle, hmem⟩, hcase⟩ := Part000.nearestGo_spec s gs g 0 1
    refine ⟨_, (Part000.nearestGo s gs g 0 1).2, rfl,
      (clampSeq_mem minT maxT _ hb).1, (clampSeq_mem minT maxT _ hb).2, ?_⟩
    rcases hcase with heq | ⟨j, hj, h1, h2, h3, h4⟩
    · rw [heq] at hle hmem ⊢
      refine ⟨by simp, ?_, ?_, ?_⟩
      · intro g' hg'
        rcases List.mem_cons.1 hg' with h | h
        · subst h; simp
        · simpa using hmem g' h
      · intro k hk
        simp at hk
      · intro hx1 hx2
        simp only [List.getD] at hx1 hx2 ⊢
        exact clampSeq_id minT maxT _ hx1 hx2
    · rw [h2] at *
      have hgetD : (g :: gs).getD (1 + j) 0 = gs.get ⟨j, hj⟩ := by
        rw [Nat.add_comm, List.getD_cons_succ, List.getD_eq_getElem gs 0 hj]
        simp [List.get_eq_getElem]
      refine ⟨by simp; omega, ?_, ?_, ?_⟩
      · intro g' hg'
        rw [hgetD, ← h1]
        rcases List.mem_cons.1 hg' with h | h
        · subst h; exact hle
        · exact hmem g' h
      · intro k hk
        rw [hgetD, ← h1]
        cases k with
        | zero => simpa using h3
        | succ n =>
          have hn : n < j := by omega
          have : (g :: gs).getD (n + 1) 0 = gs.get ⟨n, hn.trans hj⟩ := by
            rw [List.getD_cons_succ, List.getD_eq_getElem gs 0 (hn.trans hj)]
            simp [List.get_eq_getElem]
          rw [this]
          exact h4 n hn
      · intro hx1 hx2
        exact clampSeq_id minT maxT _ (by rw [hgetD, ← h1] at hx1; exact hx1)
          (by rw [hgetD, ← h1] at hx2; exact hx2) |>.trans (by rw [hgetD, ← h1])
  · have e1 : |(-620 : ℚ) - (-300)| < |(-620 : ℚ) - 0| := by norm_num
    have e2 : |(-620 : ℚ) - (-600)| < |(-620 : ℚ) - (-300)| := by norm_num
    show Part000.snapToNearest [0, -300, -600] 0 (-600) (-620) = some (-600, 2)
    simp only [Part000.snapToNearest]
    rw [Part000.nearestGo_cons_lt _ _ _ _ _ _ e1,
      Part000.nearestGo_cons_lt _ _ _ _ _ _ e2]
    norm_num [Part000.nearestGo]

/-- Witness for C2: the general clamped-argmin statement instantiated at the
concrete grid `[0, -300, -600]`, bounds `0 / -600`, search position `-620`. -/
theorem snapToNearest_clamped_argmin_witness :
    ∃ c i, Part000.snapToNearest (0 :: [-300, -600]) 0 (-600) (-620) = some (c, i) ∧
      (-600 : ℚ) ≤ c ∧ c ≤ 0 ∧ i < (0 :: [(-300 : ℚ), -600]).length ∧
      (∀ g' ∈ (0 : ℚ) :: [-300, -600],
        |(-620 : ℚ) - ((0 : ℚ) :: [-300, -600]).getD i 0| ≤ |(-620 : ℚ) - g'|) ∧
      (∀ k, k < i → |(-620 : ℚ) - ((0 : ℚ) :: [-300, -600]).getD k 0| >
        |(-620 : ℚ) - ((0 : ℚ) :: [-300, -600]).getD i 0|) ∧
      ((-600 : ℚ) ≤ ((0 : ℚ) :: [-300, -600]).getD i 0 →
        ((0 : ℚ) :: [-300, -600]).getD i 0 ≤ 0 →
        c = ((0 : ℚ) :: [-300, -600]).getD i 0) :=
  snapToNearest_clamped_argmin.1 0 [-300, -600] 0 (-600) (-620) (by norm_num)

namespace TouchSliderJS

/-- Embedding of `TouchSlider.js` `getBounds()`: `max = 0` (start position),
`min = -(trackWidth - sliderWidth)`; returned as `(min, max)`. -/
def getBounds (trackWidth sliderWidth : ℚ) : ℚ × ℚ :=
  (-(trackWidth - sliderWidth), 0)

/-- Embedding of `TouchSlider.js` `clamp(value, min, max)`:
`Math.min(Math.max(value, min), max)`. -/
def clamp (value mn mx : ℚ) : ℚ := min (max value mn) mx

/-- Embedding of the loop inside `TouchSlider.js` `getSlidePositions()`:
`i` is the slide index and `acc` the accumulated offset of slide widths;
centred alignment yields `-(slideCenter - containerCenter)`, leading ('start')
alignment yields `-accumulatedOffset`. -/
def slidePositionsGo (sliderWidth : ℚ) (center : Bool) :
    List ℚ → ℕ → ℚ → List (ℕ × ℚ)
  | [], _, _ => []
  | w :: ws, i, acc =>
    let position := if center then -(acc + w / 2 - sliderWidth / 2) else -acc
    (i, position) :: slidePositionsGo sliderWidth center ws (i + 1) (acc + w)

/-- Embedding of `TouchSlider.js` `getSlidePositions()` for a slide list given
by its widths. -/
def getSlidePositions (sliderWidth : ℚ) (center : Bool) (widths : List ℚ) :
    List (ℕ × ℚ) :=
  slidePositionsGo sliderWidth center widths 0 0

/-- Embedding of `TouchSlider.js` `findNearestSlide(currentPosition, velocity)`.
With no slides it returns `{index: 0, position: 0}`.  Otherwise it projects the
position by `velocity * velocityMultiplier * 100`, scans all slide positions
keeping the strictly closer one (the source's separate `minDistance`
accumulator always equals the distance to the kept entry, so only the kept
entry is tracked here), optionally forces the adjacent slide on a fast flick
(`|velocity| > 0.5`), and clamps the result into `getBounds()`.  The `getD`
fallbacks model the in-range array accesses performed by the source. -/
def findNearestSlide (trackW sliderW : ℚ) (center : Bool) (widths : List ℚ)
    (currentSlideIndex : ℕ) (velocityMultiplier currentPosition velocity : ℚ) :
    ℕ × ℚ :=
  let slidePositions := getSlidePositions sliderW center widths
  match slidePositions with
  | [] => (0, 0)
  | p0 :: _ =>
    let projectedPosition := currentPosition + velocity * velocityMultiplier * 100
    let nearest0 := slidePositions.foldl
      (fun best p =>
        if |projectedPosition - p.2| < |projectedPosition - best.2| then p
        else best) p0
    let nearest1 :=
      if (1/2 : ℚ) < |velocity| then
        if velocity < 0 then
          let nextIndex := min (currentSlideIndex + 1) (slidePositions.length - 1)
          if currentSlideIndex < nextIndex then slidePositions.getD nextIndex nearest0
          else nearest0
        else if 0 < velocity then
          let prevIndex := currentSlideIndex - 1
          if prevIndex < currentSlideIndex then slidePositions.getD prevIndex nearest0
          else nearest0
        else nearest0
      else nearest0
    let bounds := getBounds trackW sliderW
    (nearest1.1, clamp nearest1.2 bounds.1 bounds.2)

end TouchSliderJS

namespace SliderJS

/-- Embedding of the grid-building loop in `slider.js` `updateDimensions()`:
each slide is a `(width, marginRight)` pair; its grid entry is
`-offset + (containerWidth - width) / 2` (centred alignment) and `offset`
advances by `width + marginRight`. -/
def slidesGrid (containerWidth : ℚ) : List (ℚ × ℚ) → ℚ → List ℚ
  | [], _ => []
  | (w, m) :: rest, offset =>
    (-offset + (containerWidth - w) / 2) ::
      slidesGrid containerWidth rest (offset + w + m)

/-- Embedding of the bounds assignment in `slider.js` `updateDimensions()`:
`minTranslate` is the first grid entry (0 when the grid is empty). -/
def minTranslate (containerWidth : ℚ) (slides : List (ℚ × ℚ)) : ℚ :=
  (slidesGrid containerWidth slides 0).head?.getD 0

/-- Embedding of the bounds assignment in `slider.js` `updateDimensions()`:
`maxTranslate` is the last grid entry (0 when the grid is empty). -/
def maxTranslate (containerWidth : ℚ) (slides : List (ℚ × ℚ)) : ℚ :=
  (slidesGrid containerWidth slides 0).getLast?.getD 0

end SliderJS

namespace Part000

/-- Embedding of the leading-edge (`centered: false`) bounds assignment in
`part_000` `updateDimensions()`: `maxTranslate = Math.min(minTranslate,
maxScroll)`. -/
def maxTranslateLeading (minTranslate maxScroll : ℚ) : ℚ :=
  min minTranslate maxScroll

end Part000

/-- Helper: along the `slider.js` grid, the head entry dominates the last
entry, for any accumulated offset, when all widths and margins are
non-negative. -/
theorem slidesGrid_head_ge_last (slides : List (ℚ × ℚ)) :
    ∀ (C offset : ℚ), (∀ p ∈ slides, 0 ≤ p.1 ∧ 0 ≤ p.2) →
      (SliderJS.slidesGrid C slides offset).getLast?.getD 0 ≤
        (SliderJS.slidesGrid C slides offset).head?.getD 0 := by
  induction slides with
  | nil => intro C offset _; simp [SliderJS.slidesGrid]
  | cons hd rest ih =>
    intro C offset hpos
    obtain ⟨w, m⟩ := hd
    cases rest with
    | nil => simp [SliderJS.slidesGrid]
    | cons hd2 rest2 =>
      obtain ⟨w2, m2⟩ := hd2
      have hw : 0 ≤ w := (hpos (w, m) (by simp)).1
      have hm : 0 ≤ m := (hpos (w, m) (by simp)).2
      have hw2 : 0 ≤ w2 := (hpos (w2, m2) (by simp)).1
      have hrest : ∀ p ∈ (w2, m2) :: rest2, 0 ≤ p.1 ∧ 0 ≤ p.2 := by
        intro p hp; exact hpos p (List.mem_cons_of_mem _ hp)
      have ihx := ih C (offset + w + m) hrest
      have hhead : (SliderJS.slidesGrid C ((w2, m2) :: rest2) (offset + w + m)).head?.getD 0 =
          -(offset + w + m) + (C - w2) / 2 := by
        simp [SliderJS.slidesGrid]
      have hne : SliderJS.slidesGrid C ((w2, m2) :: rest2) (offset + w + m) =
          (-(offset + w + m) + (C - w2) / 2) ::
            SliderJS.slidesGrid C rest2 (offset + w + m + w2 + m2) := by
        simp [SliderJS.slidesGrid]
      calc (SliderJS.slidesGrid C ((w, m) :: (w2, m2) :: rest2) offset).getLast?.getD 0
      _ = (SliderJS.slidesGrid C ((w2, m2) :: rest2) (offset + w + m)).getLast?.getD 0 := by
        simp only [SliderJS.slidesGrid]
        rw [List.getLast?_cons_cons]
      _ ≤ (SliderJS.slidesGrid C ((w2, m2) :: rest2) (offset + w + m)).head?.getD 0 := ihx
      _ ≤ -offset + (C - w) / 2 := by rw [hhead]; linarith
      _ = (SliderJS.slidesGrid C ((w, m) :: (w2, m2) :: rest2) offset).head?.getD 0 := by
        simp [SliderJS.slidesGrid]

/-- C9 counterexample: with one slide of width 100 in a container of width 300,
`TouchSlider.js` `getBounds()` gives `min = 200 > 0 = max`; in the spec's
naming `minTranslate` is the rightmost bound (`max`, here 0) and
`maxTranslate` the leftmost (`min`, here 200), so `minTranslate >=
maxTranslate` fails for this variant. -/
theorem getBounds_inverted_when_content_narrow :
    (TouchSliderJS.getBounds 100 300).2 < (TouchSliderJS.getBounds 100 300).1 := by
  norm_num [TouchSliderJS.getBounds]

/-- C9 (amended): after geometry/bounds recomputation, `slider.js` satisfies
`maxTranslate ≤ minTranslate` for every slide sequence with non-negative
widths and margins and any container width; `part_000`'s leading-edge branch
guarantees it by its explicit `Math.min` clamp; `TouchSlider.js` `getBounds()`
satisfies the corresponding `min ≤ max` only when the track is at least as
wide as the container. -/
theorem bounds_invariant_amended :
    (∀ (C : ℚ) (slides : List (ℚ × ℚ)), (∀ p ∈ slides, 0 ≤ p.1 ∧ 0 ≤ p.2) →
      SliderJS.maxTranslate C slides ≤ SliderJS.minTranslate C slides) ∧
    (∀ minT maxScroll : ℚ, Part000.maxTranslateLeading minT maxScroll ≤ minT) ∧
    (∀ trackW sliderW : ℚ, sliderW ≤ trackW →
      (TouchSliderJS.getBounds trackW sliderW).1 ≤
        (TouchSliderJS.getBounds trackW sliderW).2) := by
  refine ⟨?_, ?_, ?_⟩
  · intro C slides hpos
    exact slidesGrid_head_ge_last slides C 0 hpos
  · intro minT maxScroll
    exact min_le_left _ _
  · intro trackW sliderW h
    simp only [TouchSliderJS.getBounds]
    linarith

/-- Witness for C9: the amended invariant at container width 300 and three
300-wide margin-free slides (`slider.js`), and at a 900-wide track in a
300-wide container (`TouchSlider.js`). -/
theorem bounds_invariant_amended_witness :
    SliderJS.maxTranslate 300 [(300, 0), (300, 0), (300, 0)] ≤
      SliderJS.minTranslate 300 [(300, 0), (300, 0), (300, 0)] ∧
    (TouchSliderJS.getBounds 900 300).1 ≤ (TouchSliderJS.getBounds 900 300).2 :=
  ⟨bounds_invariant_amended.1 300 [(300, 0), (300, 0), (300, 0)]
      (by norm_num),
    bounds_invariant_amended.2.2 900 300 (by norm_num)⟩

namespace Part000

/-- Embedding of `part_000` `calculateVelocity()` (identical to the
`slider.js` one: the 100 ms window was already enforced at record time). -/
def calculateVelocity (positions : List (ℚ × ℚ)) : ℚ :=
  if positions.length < 2 then 0
  else
    let first := positions.head?.getD (0, 0)
    let last := positions.getLast?.getD (0, 0)
    let dt := last.2 - first.2
    if dt = 0 then 0
    else (last.1 - first.1) / dt

/-- The motion phase a `part_000` `onTouchEnd` invocation hands control to. -/
inductive EndAction where
  | idle
  | snapNearestCurrent
  | snapNearestProj (proj : ℚ)
  | snapBounds
  | inertia (v : ℚ)
deriving DecidableEq

/-- Embedding of `part_000` `onTouchEnd(e)` as the phase decision it makes:
early exits when not dragging, when the direction was never resolved, or when
it resolved vertical; `snapToNearest()` on `touchcancel`; velocity below 0.05
is zeroed; an out-of-bounds release with `|velocity| < 0.1` goes straight to
`snapToBounds()`; otherwise snap mode projects `current + velocity * 200` and
snaps, and the remaining cases start the inertia loop. -/
def onTouchEnd (minT maxT : ℚ) (freeMode isCancel isDragging : Bool)
    (isHorizontal : Option Bool) (current : ℚ) (positions : List (ℚ × ℚ)) :
    EndAction :=
  if isDragging = false then EndAction.idle
  else if isHorizontal = none then EndAction.idle
  else if isHorizontal = some false then EndAction.idle
  else if isCancel then EndAction.snapNearestCurrent
  else
    let vraw := calculateVelocity positions
    let v := if |vraw| < 1/20 then 0 else vraw
    if (current > minT ∨ current < maxT) ∧ |v| < 1/10 then EndAction.snapBounds
    else if freeMode = false ∧ (current ≤ minT ∧ current ≥ maxT) then
      EndAction.snapNearestProj (current + v * 200)
    else EndAction.inertia v

end Part000

/-- C5: On release (touch end), if the current track offset is out of bounds
and the computed velocity magnitude is below the low threshold (0.1, with
sub-0.05 velocities first zeroed), the engine enters the return-to-bounds
phase (`snapToBounds`) directly, skipping the inertia physics phase
entirely. -/
theorem lowVelocity_release_enters_snapBounds
    (minT maxT : ℚ) (freeMode : Bool) (current : ℚ)
    (positions : List (ℚ × ℚ))
    (hout : current > minT ∨ current < maxT)
    (hv : |Part000.calculateVelocity positions| < 1/10) :
    Part000.onTouchEnd minT maxT freeMode false true (some true) current
      positions = Part000.EndAction.snapBounds := by
  unfold Part000.onTouchEnd
  simp only [reduceIte, reduceCtorEq, Option.some.injEq, Bool.true_eq_false,
    Bool.false_eq_true]
  have hvz : |if |Part000.calculateVelocity positions| < 1/20 then (0 : ℚ)
      else Part000.calculateVelocity positions| < 1/10 := by
    by_cases hsmall : |Part000.calculateVelocity positions| < 1/20
    · rw [if_pos hsmall]; norm_num
    · rw [if_neg hsmall]; exact hv
  rw [if_pos ⟨hout, hvz⟩]

/-- Witness for C5: release at offset `minTranslate + 40 = 40` (bounds
`min = 0`, `max = -600`), with history `[(0,0),(2,100)]` whose estimated
velocity is `0.02 < 0.1`: the decision is `snapBounds`. -/
theorem lowVelocity_release_enters_snapBounds_witness :
    ((40 : ℚ) > 0 ∨ (40 : ℚ) < -600) ∧
    |Part000.calculateVelocity [(0, 0), (2, 100)]| < 1/10 ∧
    Part000.onTouchEnd 0 (-600) false false true (some true) 40
      [(0, 0), (2, 100)] = Part000.EndAction.snapBounds :=
  ⟨Or.inl (by norm_num),
    by rw [show Part000.calculateVelocity [(0, 0), (2, 100)] = 1/50 from by
        norm_num [Part000.calculateVelocity]]
       rw [abs_of_nonneg] <;> norm_num,
    lowVelocity_release_enters_snapBounds 0 (-600) false 40 [(0, 0), (2, 100)]
      (Or.inl (by norm_num))
      (by rw [show Part000.calculateVelocity [(0, 0), (2, 100)] = 1/50 from by
            norm_num [Part000.calculateVelocity]]
          rw [abs_of_nonneg] <;> norm_num)⟩

namespace Part000

/-- Per-frame state of the `part_000` `startInertia()` loop: the decaying
velocity and the current track position. -/
structure InertiaState where
  v : ℚ
  x : ℚ
deriving DecidableEq

/-- The terminal transition taken by an iteration of the `part_000`
`startInertia()` loop: `snapToBounds()` (the heavy out-of-bounds friction
stopped the motion), the free-mode `sliderStop` emission, or
`snapToNearest()`. -/
inductive InertiaOutcome where
  | returnToBounds
  | stopFree
  | snapNearest
deriving DecidableEq

/-- Embedding of one frame of `part_000` `startInertia()` (with the `velocity
*= factor` assignment inlined into its two uses): out of bounds the velocity
is multiplied by 0.6 and the loop hands off to `snapToBounds()` once
`|velocity| < 0.1`; in bounds it is multiplied by `friction` and the loop
stops (free mode) or snaps once `|velocity| < 0.01`; otherwise the position
advances by `velocity * dt` and the loop continues. -/
def inertiaStep (friction minT maxT dt : ℚ) (freeMode : Bool)
    (s : InertiaState) : InertiaState ⊕ InertiaOutcome :=
  if s.x > minT ∨ s.x < maxT then
    if |s.v * (3/5)| < 1/10 then Sum.inr InertiaOutcome.returnToBounds
    else Sum.inl ⟨s.v * (3/5), s.x + s.v * (3/5) * dt⟩
  else
    if |s.v * friction| < 1/100 then
      Sum.inr (if freeMode then InertiaOutcome.stopFree
               else InertiaOutcome.snapNearest)
    else Sum.inl ⟨s.v * friction, s.x + s.v * friction * dt⟩

/-- Iterating the `startInertia()` frame step under an arbitrary sequence of
frame durations `dts`; a terminal transition is absorbing. -/
def inertiaRun (friction minT maxT : ℚ) (freeMode : Bool) (dts : ℕ → ℚ)
    (s0 : InertiaState) : ℕ → InertiaState ⊕ InertiaOutcome
  | 0 => Sum.inl s0
  | n + 1 =>
    match inertiaRun friction minT maxT freeMode dts s0 n with
    | Sum.inl s => inertiaStep friction minT maxT (dts n) freeMode s
    | Sum.inr o => Sum.inr o

/-- Helper: unfolding the run one step past a non-terminal state. -/
theorem inertiaRun_succ_of_inl (friction minT maxT : ℚ) (freeMode : Bool)
    (dts : ℕ → ℚ) (s0 : InertiaState) (n : ℕ) (s : InertiaState)
    (h : inertiaRun friction minT maxT freeMode dts s0 n = Sum.inl s) :
    inertiaRun friction minT maxT freeMode dts s0 (n + 1) =
      inertiaStep friction minT maxT (dts n) freeMode s := by
  rw [inertiaRun, h]

/-- Helper: a terminal transition is absorbing. -/
theorem inertiaRun_succ_of_inr (friction minT maxT : ℚ) (freeMode : Bool)
    (dts : ℕ → ℚ) (s0 : InertiaState) (n : ℕ) (o : InertiaOutcome)
    (h : inertiaRun friction minT maxT freeMode dts s0 n = Sum.inr o) :
    inertiaRun friction minT maxT freeMode dts s0 (n + 1) = Sum.inr o := by
  rw [inertiaRun, h]

/-- Helper: while the loop has not terminated, the velocity magnitude decays
at least geometrically with ratio `max friction (3/5)` per frame. -/
theorem inertiaRun_velocity_decay (friction minT maxT : ℚ) (freeMode : Bool)
    (dts : ℕ → ℚ) (s0 : InertiaState) (hf0 : 0 ≤ friction) :
    ∀ n s, inertiaRun friction minT maxT freeMode dts s0 n = Sum.inl s →
      |s.v| ≤ (max friction (3/5)) ^ n * |s0.v| := by
  intro n
  induction n with
  | zero =>
    intro s h
    simp only [inertiaRun, Sum.inl.injEq] at h
    rw [← h]
    simp
  | succ n ih =>
    intro s h
    have hc0 : 0 ≤ max friction (3/5) := le_trans hf0 (le_max_left _ _)
    cases hprev : inertiaRun friction minT maxT freeMode dts s0 n with
    | inr o =>
      rw [inertiaRun_succ_of_inr friction minT maxT freeMode dts s0 n o hprev] at h
      exact absurd h (by simp)
    | inl s' =>
      rw [inertiaRun_succ_of_inl friction minT maxT freeMode dts s0 n s' hprev] at h
      have hv' := ih s' hprev
      unfold inertiaStep at h
      by_cases hout : s'.x > minT ∨ s'.x < maxT
      · rw [if_pos hout] at h
        by_cases hsv : |s'.v * (3/5)| < 1/10
        · rw [if_pos hsv] at h; exact absurd h (by simp)
        · rw [if_neg hsv] at h
          simp only [Sum.inl.injEq] at h
          rw [← h]
          calc |s'.v * (3/5)| = |s'.v| * (3/5) := by
                rw [abs_mul]; norm_num
          _ ≤ ((max friction (3/5)) ^ n * |s0.v|) * (max friction (3/5)) :=
              mul_le_mul hv' (le_max_right _ _) (by norm_num)
                (mul_nonneg (pow_nonneg hc0 _) (abs_nonneg _))
          _ = (max friction (3/5)) ^ (n + 1) * |s0.v| := by ring
      · rw [if_neg hout] at h
        by_cases hsv : |s'.v * friction| < 1/100
        · rw [if_pos hsv] at h; exact absurd h (by simp)
        · rw [if_neg hsv] at h
          simp only [Sum.inl.injEq] at h
          rw [← h]
          calc |s'.v * friction| = |s'.v| * friction := by
                rw [abs_mul, abs_of_nonneg hf0]
          _ ≤ ((max friction (3/5)) ^ n * |s0.v|) * (max friction (3/5)) :=
              mul_le_mul hv' (le_max_left _ _) hf0
                (mul_nonneg (pow_nonneg hc0 _) (abs_nonneg _))
          _ = (max friction (3/5)) ^ (n + 1) * |s0.v| := by ring

/-- C7: Starting the per-frame inertia loop with any finite initial velocity
and an in-bounds position, the loop reaches a terminal transition (stop
emitted, snap started, or return-to-bounds entered) within a bounded number of
frames: the friction multiplier `< 1` (and the 0.6 out-of-bounds factor) make
the velocity decay geometrically below the stop thresholds, uniformly in the
frame-duration sequence. -/
theorem inertia_terminates (friction minT maxT : ℚ) (freeMode : Bool)
    (s0 : InertiaState) (hf0 : 0 ≤ friction) (hf1 : friction < 1)
    (hin1 : maxT ≤ s0.x) (hin2 : s0.x ≤ minT) :
    ∃ n, ∀ dts : ℕ → ℚ,
      (inertiaRun friction minT maxT freeMode dts s0 n).isRight = true := by
  have hc0 : 0 ≤ max friction (3/5) := le_trans hf0 (le_max_left _ _)
  have hc1 : max friction (3/5) < 1 := max_lt hf1 (by norm_num)
  obtain ⟨n, hn⟩ := exists_pow_lt_of_lt_one
    (show (0 : ℚ) < (1/100) / (|s0.v| + 1) by positivity) hc1
  have hsmall : (max friction (3/5)) ^ n * |s0.v| < 1/100 := by
    have h1 : (max friction (3/5)) ^ n * |s0.v| ≤
        (max friction (3/5)) ^ n * (|s0.v| + 1) :=
      mul_le_mul_of_nonneg_left (by linarith [abs_nonneg s0.v])
        (pow_nonneg hc0 n)
    have hpos : (0 : ℚ) < |s0.v| + 1 := by positivity
    have h2 : (max friction (3/5)) ^ n * (|s0.v| + 1) < 1/100 := by
      calc (max friction (3/5)) ^ n * (|s0.v| + 1)
          < ((1/100) / (|s0.v| + 1)) * (|s0.v| + 1) :=
            mul_lt_mul_of_pos_right hn hpos
      _ = 1/100 := div_mul_cancel₀ _ (ne_of_gt hpos)
    linarith
  refine ⟨n + 1, ?_⟩
  intro dts
  cases hrun : inertiaRun friction minT maxT freeMode dts s0 n with
  | inr o => rw [inertiaRun_succ_of_inr friction minT maxT freeMode dts s0 n o hrun]; rfl
  | inl s =>
    have hsv := inertiaRun_velocity_decay friction minT maxT freeMode dts s0
      hf0 n s hrun
    have hs100 : |s.v| < 1/100 := lt_of_le_of_lt hsv hsmall
    rw [inertiaRun_succ_of_inl friction minT maxT freeMode dts s0 n s hrun]
    unfold inertiaStep
    by_cases hout : s.x > minT ∨ s.x < maxT
    · rw [if_pos hout]
      have habs : |s.v * (3/5)| < 1/10 := by
        rw [abs_mul, show |(3/5 : ℚ)| = 3/5 from by norm_num]
        linarith
      rw [if_pos habs]; rfl
    · rw [if_neg hout]
      have habs : |s.v * friction| < 1/100 := by
        rw [abs_mul, abs_of_nonneg hf0]
        calc |s.v| * friction ≤ |s.v| * 1 :=
            mul_le_mul_of_nonneg_left (le_of_lt hf1) (abs_nonneg _)
        _ = |s.v| := mul_one _
        _ < 1/100 := hs100
      rw [if_pos habs]; rfl

end Part000

/-- Witness for C7: default friction `0.95`, bounds `min = 0`, `max = -600`,
initial state velocity 5 at in-bounds position `-100`: for some frame count
the loop has terminated regardless of the frame-duration sequence. -/
theorem inertia_terminates_witness :
    (0 : ℚ) ≤ 19/20 ∧ (19/20 : ℚ) < 1 ∧ (-600 : ℚ) ≤ -100 ∧ (-100 : ℚ) ≤ 0 ∧
    ∃ n, ∀ dts : ℕ → ℚ,
      (Part000.inertiaRun (19/20) 0 (-600) false dts ⟨5, -100⟩ n).isRight = true :=
  ⟨by norm_num, by norm_num, by norm_num, by norm_num,
    Part000.inertia_terminates (19/20) 0 (-600) false ⟨5, -100⟩
      (by norm_num) (by norm_num) (by norm_num) (by norm_num)⟩

namespace TouchSliderJS

/-- Real-valued embedding of `TouchSlider.js` `getBounds()` (used by the
rubber-band code, which involves a fractional power). -/
noncomputable def getBoundsR (trackWidth sliderWidth : ℝ) : ℝ × ℝ :=
  (-(trackWidth - sliderWidth), 0)

/-- Embedding of `TouchSlider.js` `applyRubberBand(position, delta)`:
positions inside `[bounds.min, bounds.max]` pass through; beyond a bound the
damped overshoot `Math.sign(overshoot) * Math.pow(Math.abs(overshoot), 0.7) *
resistance` (resistance `0.5`) is added to the bound.  The `delta` parameter
is accepted and unused, as in the source. -/
noncomputable def applyRubberBand (trackWidth sliderWidth position delta : ℝ) : ℝ :=
  let bounds := getBoundsR trackWidth sliderWidth
  if bounds.1 ≤ position ∧ position ≤ bounds.2 then position
  else if position > bounds.2 then
    bounds.2 + Real.sign (position - bounds.2) *
      |position - bounds.2| ^ ((7 : ℝ)/10) * (1/2)
  else if position < bounds.1 then
    bounds.1 - Real.sign (bounds.1 - position) *
      |bounds.1 - position| ^ ((7 : ℝ)/10) * (1/2)
  else position

end TouchSliderJS

/-- Helper: `25 < 100^0.7 < 26` (so `100^0.7 * 0.5 ≈ 12.6`). -/
theorem rpow_hundred_bounds :
    25 < (100 : ℝ) ^ ((7 : ℝ)/10) ∧ (100 : ℝ) ^ ((7 : ℝ)/10) < 26 := by
  have ha0 : (0 : ℝ) ≤ (100 : ℝ) ^ ((7 : ℝ)/10) :=
    Real.rpow_nonneg (by norm_num) _
  have hkey : ((100 : ℝ) ^ ((7 : ℝ)/10)) ^ (10 : ℕ) = (100 : ℝ) ^ (7 : ℕ) := by
    rw [← Real.rpow_natCast ((100 : ℝ) ^ ((7 : ℝ)/10)) 10,
      ← Real.rpow_mul (by norm_num : (0 : ℝ) ≤ 100),
      show ((7 : ℝ)/10) * (10 : ℕ) = ((7 : ℕ) : ℝ) by norm_num,
      Real.rpow_natCast]
  constructor
  · have := (pow_lt_pow_iff_left₀ (by norm_num : (0 : ℝ) ≤ 25) ha0
      (by norm_num : (10 : ℕ) ≠ 0))
    rw [← this, hkey]
    norm_num
  · have := (pow_lt_pow_iff_left₀ ha0 (by norm_num : (0 : ℝ) ≤ 26)
      (by norm_num : (10 : ℕ) ≠ 0))
    rw [← this, hkey]
    norm_num

/-- Helper: `(1/100)^0.7 > 1/50`, i.e. a one-hundredth-pixel overshoot is
amplified (0.5 · (1/100)^0.7 ≈ 0.00199 > 0.0100... wait, 2·(1/100) = 1/50):
the damped overshoot `(1/100)^0.7 * 0.5` exceeds the raw overshoot `1/100`
exactly when `(1/100)^0.7 > 1/50`. -/
theorem rpow_hundredth_large :
    (1/50 : ℝ) < (1/100 : ℝ) ^ ((7 : ℝ)/10) := by
  have ha0 : (0 : ℝ) ≤ (1/100 : ℝ) ^ ((7 : ℝ)/10) :=
    Real.rpow_nonneg (by norm_num) _
  have hkey : ((1/100 : ℝ) ^ ((7 : ℝ)/10)) ^ (10 : ℕ) = (1/100 : ℝ) ^ (7 : ℕ) := by
    rw [← Real.rpow_natCast ((1/100 : ℝ) ^ ((7 : ℝ)/10)) 10,
      ← Real.rpow_mul (by norm_num : (0 : ℝ) ≤ 1/100),
      show ((7 : ℝ)/10) * (10 : ℕ) = ((7 : ℕ) : ℝ) by norm_num,
      Real.rpow_natCast]
  have := (pow_lt_pow_iff_left₀ (by norm_num : (0 : ℝ) ≤ 1/50) ha0
    (by norm_num : (10 : ℕ) ≠ 0))
  rw [← this, hkey]
  norm_num

/-- C3 counterexample: with bounds `(0, 0)` (track as wide as the container),
a desired offset `0.01` past the bound is mapped by the rubber band to
`(0.01)^0.7 * 0.5 ≈ 0.0199`, which is *more* than the raw overshoot `0.01`:
for sub-pixel overshoots the power-law response exceeds the unconstrained
offset, so "the applied offset always moves strictly less than the raw
overshoot" is false. -/
theorem rubberBand_sublinear_counterexample :
    TouchSliderJS.applyRubberBand 300 300 (1/100) (1/100) > 1/100 := by
  unfold TouchSliderJS.applyRubberBand TouchSliderJS.getBoundsR
  rw [if_neg (by norm_num), if_pos (by norm_num)]
  have hsign : Real.sign ((1/100 : ℝ) - 0) = 1 :=
    Real.sign_of_pos (by norm_num)
  rw [hsign]
  rw [show |(1/100 : ℝ) - 0| = 1/100 from by rw [abs_of_pos] <;> norm_num]
  have := rpow_hundredth_large
  nlinarith [this]

/-- Helper: the exact sub-linearity cutoff of the damped overshoot
`f(o) = o^0.7 * 0.5`: for every overshoot strictly above `(1/2)^(10/3)`
(≈ 0.099 px) the damped overshoot is strictly below the raw overshoot. -/
theorem rpow_damped_lt_self (o : ℝ)
    (ho : (1/2 : ℝ) ^ ((10 : ℝ)/3) < o) :
    o ^ ((7 : ℝ)/10) * (1/2) < o := by
  have hhalf : (0 : ℝ) < (1/2 : ℝ) ^ ((10 : ℝ)/3) :=
    Real.rpow_pos_of_pos (by norm_num) _
  have ho0 : 0 < o := lt_trans hhalf ho
  have hmono : ((1/2 : ℝ) ^ ((10 : ℝ)/3)) ^ ((3 : ℝ)/10) < o ^ ((3 : ℝ)/10) :=
    Real.rpow_lt_rpow (le_of_lt hhalf) ho (by norm_num)
  have hL : ((1/2 : ℝ) ^ ((10 : ℝ)/3)) ^ ((3 : ℝ)/10) = 1/2 := by
    rw [← Real.rpow_mul (by norm_num : (0 : ℝ) ≤ 1/2),
      show ((10 : ℝ)/3) * ((3 : ℝ)/10) = 1 by norm_num, Real.rpow_one]
  rw [hL] at hmono
  calc o ^ ((7 : ℝ)/10) * (1/2) < o ^ ((7 : ℝ)/10) * (o ^ ((3 : ℝ)/10)) :=
      mul_lt_mul_of_pos_left hmono (Real.rpow_pos_of_pos ho0 _)
  _ = o ^ ((7 : ℝ)/10 + (3 : ℝ)/10) := (Real.rpow_add ho0 _ _).symm
  _ = o := by
      rw [show (7 : ℝ)/10 + (3 : ℝ)/10 = 1 by norm_num, Real.rpow_one]

/-- Helper: the cutoff is below one pixel (so pixel-scale overshoots are in
the sub-linear regime). -/
theorem rpow_cutoff_lt_one : (1/2 : ℝ) ^ ((10 : ℝ)/3) < 1 :=
  Real.rpow_lt_one (by norm_num) (by norm_num) (by norm_num)

/-- C3 (amended): during a drag whose unconstrained desired offset lies beyond
either bound with overshoot strictly greater than `(1/2)^(10/3) ≈ 0.099` px,
the applied offset equals `bound ± overshoot^0.7 * 0.5` and moves strictly
less than the raw overshoot — past the right/max bound unconditionally, past
the left/min bound under the sane-geometry ordering `min ≤ max` (with
inverted bounds the source's if-chain takes the max branch first); for
overshoots at or below the cutoff the power-law response ties or exceeds the
raw overshoot (see the counterexample).  Specifically, dragging from offset 0
toward a desired offset 100 past the bound yields an applied offset strictly
between 12.5 and 13 (≈ 12.6), strictly less than 100. -/
theorem rubberBand_amended :
    (∀ trackW sliderW position delta : ℝ,
      (TouchSliderJS.getBoundsR trackW sliderW).2 < position →
      (1/2 : ℝ) ^ ((10 : ℝ)/3) <
        position - (TouchSliderJS.getBoundsR trackW sliderW).2 →
      TouchSliderJS.applyRubberBand trackW sliderW position delta =
        (TouchSliderJS.getBoundsR trackW sliderW).2 +
          (position - (TouchSliderJS.getBoundsR trackW sliderW).2) ^ ((7 : ℝ)/10) *
            (1/2) ∧
      TouchSliderJS.applyRubberBand trackW sliderW position delta < position) ∧
    (∀ trackW sliderW position delta : ℝ,
      (TouchSliderJS.getBoundsR trackW sliderW).1 ≤
        (TouchSliderJS.getBoundsR trackW sliderW).2 →
      position < (TouchSliderJS.getBoundsR trackW sliderW).1 →
      (1/2 : ℝ) ^ ((10 : ℝ)/3) <
        (TouchSliderJS.getBoundsR trackW sliderW).1 - position →
      TouchSliderJS.applyRubberBand trackW sliderW position delta =
        (TouchSliderJS.getBoundsR trackW sliderW).1 -
          ((TouchSliderJS.getBoundsR trackW sliderW).1 - position) ^ ((7 : ℝ)/10) *
            (1/2) ∧
      position < TouchSliderJS.applyRubberBand trackW sliderW position delta) ∧
    (25/2 : ℝ) < TouchSliderJS.applyRubberBand 300 300 100 100 ∧
    TouchSliderJS.applyRubberBand 300 300 100 100 < 13 ∧
    TouchSliderJS.applyRubberBand 300 300 100 100 < 100 := by
  have hmax : ∀ trackW sliderW position delta : ℝ,
      (TouchSliderJS.getBoundsR trackW sliderW).2 < position →
      (1/2 : ℝ) ^ ((10 : ℝ)/3) <
        position - (TouchSliderJS.getBoundsR trackW sliderW).2 →
      TouchSliderJS.applyRubberBand trackW sliderW position delta =
        (TouchSliderJS.getBoundsR trackW sliderW).2 +
          (position - (TouchSliderJS.getBoundsR trackW sliderW).2) ^ ((7 : ℝ)/10) *
            (1/2) ∧
      TouchSliderJS.applyRubberBand trackW sliderW position delta < position := by
    intro trackW sliderW position delta hgt hcut
    have hb2 : (TouchSliderJS.getBoundsR trackW sliderW).2 = 0 := rfl
    rw [hb2] at hgt hcut ⊢
    have heq : TouchSliderJS.applyRubberBand trackW sliderW position delta =
        0 + (position - 0) ^ ((7 : ℝ)/10) * (1/2) := by
      unfold TouchSliderJS.applyRubberBand
      rw [if_neg (by
          rintro ⟨-, hle⟩
          simp only [TouchSliderJS.getBoundsR] at hle
          linarith),
        if_pos (by simpa [TouchSliderJS.getBoundsR] using hgt)]
      rw [show Real.sign (position - (TouchSliderJS.getBoundsR trackW sliderW).2) = 1 from
          Real.sign_of_pos (by simpa [TouchSliderJS.getBoundsR] using hgt)]
      rw [show |position - (TouchSliderJS.getBoundsR trackW sliderW).2| =
          position - 0 from by
        simp only [TouchSliderJS.getBoundsR]
        rw [abs_of_pos]
        linarith]
      simp only [TouchSliderJS.getBoundsR]
      ring
    refine ⟨heq, ?_⟩
    rw [heq]
    have := rpow_damped_lt_self (position - 0) hcut
    linarith
  have hmin : ∀ trackW sliderW position delta : ℝ,
      (TouchSliderJS.getBoundsR trackW sliderW).1 ≤
        (TouchSliderJS.getBoundsR trackW sliderW).2 →
      position < (TouchSliderJS.getBoundsR trackW sliderW).1 →
      (1/2 : ℝ) ^ ((10 : ℝ)/3) <
        (TouchSliderJS.getBoundsR trackW sliderW).1 - position →
      TouchSliderJS.applyRubberBand trackW sliderW position delta =
        (TouchSliderJS.getBoundsR trackW sliderW).1 -
          ((TouchSliderJS.getBoundsR trackW sliderW).1 - position) ^ ((7 : ℝ)/10) *
            (1/2) ∧
      position < TouchSliderJS.applyRubberBand trackW sliderW position delta := by
    intro trackW sliderW position delta hord hlt hcut
    have heq : TouchSliderJS.applyRubberBand trackW sliderW position delta =
        (TouchSliderJS.getBoundsR trackW sliderW).1 -
          ((TouchSliderJS.getBoundsR trackW sliderW).1 - position) ^ ((7 : ℝ)/10) *
            (1/2) := by
      unfold TouchSliderJS.applyRubberBand
      rw [if_neg (by rintro ⟨h1, -⟩; linarith),
        if_neg (by intro hgt2; linarith),
        if_pos hlt]
      rw [show Real.sign ((TouchSliderJS.getBoundsR trackW sliderW).1 - position) = 1 from
          Real.sign_of_pos (by linarith)]
      rw [abs_of_pos (by linarith :
        (0 : ℝ) < (TouchSliderJS.getBoundsR trackW sliderW).1 - position)]
      ring
    refine ⟨heq, ?_⟩
    rw [heq]
    have := rpow_damped_lt_self
      ((TouchSliderJS.getBoundsR trackW sliderW).1 - position) hcut
    linarith
  have hcut100 : (1/2 : ℝ) ^ ((10 : ℝ)/3) <
      100 - (TouchSliderJS.getBoundsR 300 300).2 := by
    simp only [TouchSliderJS.getBoundsR]
    linarith [rpow_cutoff_lt_one]
  refine ⟨hmax, hmin, ?_, ?_, ?_⟩
  · have h := (hmax 300 300 100 100 (by norm_num [TouchSliderJS.getBoundsR])
      hcut100).1
    rw [h]
    have := rpow_hundred_bounds.1
    simp only [TouchSliderJS.getBoundsR]
    nlinarith
  · have h := (hmax 300 300 100 100 (by norm_num [TouchSliderJS.getBoundsR])
      hcut100).1
    rw [h]
    have := rpow_hundred_bounds.2
    simp only [TouchSliderJS.getBoundsR]
    nlinarith
  · exact (hmax 300 300 100 100 (by norm_num [TouchSliderJS.getBoundsR])
      hcut100).2

/-- Witness for C3 (amended): both branch rules applied concretely — desired
offset 100 past the right bound (bounds `(0, 0)`) stays strictly below 100,
and desired offset `-700` past the left bound `-600` (bounds `(-600, 0)`) is
applied strictly above `-700`. -/
theorem rubberBand_amended_witness :
    (TouchSliderJS.getBoundsR 300 300).2 < 100 ∧
    (1/2 : ℝ) ^ ((10 : ℝ)/3) < 100 - (TouchSliderJS.getBoundsR 300 300).2 ∧
    TouchSliderJS.applyRubberBand 300 300 100 100 < 100 ∧
    (TouchSliderJS.getBoundsR 900 300).1 ≤ (TouchSliderJS.getBoundsR 900 300).2 ∧
    (-700 : ℝ) < (TouchSliderJS.getBoundsR 900 300).1 ∧
    (1/2 : ℝ) ^ ((10 : ℝ)/3) < (TouchSliderJS.getBoundsR 900 300).1 - (-700) ∧
    (-700 : ℝ) < TouchSliderJS.applyRubberBand 900 300 (-700) (-700) := by
  have hc1 : (1/2 : ℝ) ^ ((10 : ℝ)/3) < 100 - (TouchSliderJS.getBoundsR 300 300).2 := by
    simp only [TouchSliderJS.getBoundsR]
    linarith [rpow_cutoff_lt_one]
  have hc2 : (1/2 : ℝ) ^ ((10 : ℝ)/3) <
      (TouchSliderJS.getBoundsR 900 300).1 - (-700) := by
    simp only [TouchSliderJS.getBoundsR]
    linarith [rpow_cutoff_lt_one]
  exact ⟨by norm_num [TouchSliderJS.getBoundsR], hc1,
    (rubberBand_amended.1 300 300 100 100
      (by norm_num [TouchSliderJS.getBoundsR]) hc1).2,
    by norm_num [TouchSliderJS.getBoundsR],
    by norm_num [TouchSliderJS.getBoundsR], hc2,
    (rubberBand_amended.2.1 900 300 (-700) (-700)
      (by norm_num [TouchSliderJS.getBoundsR])
      (by norm_num [TouchSliderJS.getBoundsR]) hc2).2⟩

namespace TouchSliderJS

/-- The `TouchSlider.js` per-session touch/track state mutated by
`handleTouchMove`: touch coordinates, the direction-lock flags, the drag
origin, the current track position and the velocity sample history. -/
structure TouchState where
  startX : ℝ
  startY : ℝ
  curX : ℝ
  curY : ℝ
  isTouching : Bool
  isDirectionDetermined : Bool
  isHorizontalSwipe : Bool
  isDragging : Bool
  startPositionX : ℝ
  posX : ℝ
  history : List (ℝ × ℝ)

/-- Embedding of `TouchSlider.js` `handleTouchMove(e)`: exits when no touch is
active; updates the current coordinates; while the direction is undetermined,
locks it on the first sample with `|deltaX| > 10 || |deltaY| > 10`, classifying
horizontal exactly when `deltaX ≠ 0` and `|deltaY| / |deltaX| < 5.6713`
(`tan 80°`, the source's encoding of the 80° angle threshold), in which case
the drag starts from the current track position; finally, a determined
horizontal swipe moves the track through `applyRubberBand` and records the new
position in the 150 ms history window. -/
noncomputable def handleTouchMove (trackW sliderW : ℝ) (s : TouchState)
    (x y now : ℝ) : TouchState :=
  if s.isTouching = false then s
  else
    let s1 := {s with curX := x, curY := y}
    let deltaX := x - s1.startX
    let deltaY := y - s1.startY
    let s2 :=
      if s1.isDirectionDetermined = false then
        if |deltaX| > 10 ∨ |deltaY| > 10 then
          let isH := if |deltaX| = 0 then false
                     else |deltaY| / |deltaX| < 5.6713
          let s' := {s1 with isDirectionDetermined := true,
                             isHorizontalSwipe := isH}
          if isH then
            {s' with startPositionX := s'.posX, isDragging := true}
          else s'
        else s1
      else s1
    if s2.isDirectionDetermined = true ∧ s2.isHorizontalSwipe = true then
      let newPositionX := applyRubberBand trackW sliderW
        (s2.startPositionX + deltaX) deltaX
      {s2 with posX := newPositionX,
               history := (s2.history ++ [(newPositionX, now)]).filter
                 (fun p => now - p.2 ≤ 150)}
    else s2

/-- Iterating `handleTouchMove` over a list of `(x, y, timestamp)` move
samples of one touch session. -/
noncomputable def processTouchMoves (trackW sliderW : ℝ) (s : TouchState)
    (moves : List (ℝ × ℝ × ℝ)) : TouchState :=
  moves.foldl (fun st m => handleTouchMove trackW sliderW st m.1 m.2.1 m.2.2) s

end TouchSliderJS

/-- Helper: one `handleTouchMove` step never revises an already-determined
direction. -/
theorem handleTouchMove_lock_step (trackW sliderW : ℝ)
    (s : TouchSliderJS.TouchState) (x y now : ℝ)
    (hd : s.isDirectionDetermined = true) :
    (TouchSliderJS.handleTouchMove trackW sliderW s x y now).isDirectionDetermined
      = true ∧
    (TouchSliderJS.handleTouchMove trackW sliderW s x y now).isHorizontalSwipe
      = s.isHorizontalSwipe := by
  by_cases ht : s.isTouching = false
  · simp [TouchSliderJS.handleTouchMove, ht, hd]
  · by_cases hh : s.isHorizontalSwipe = true
    · simp [TouchSliderJS.handleTouchMove, ht, hd, hh]
    · simp [TouchSliderJS.handleTouchMove, ht, hd, hh]

/-- Helper: over a whole session suffix, an already-determined direction is
immutable. -/
theorem processTouchMoves_lock (trackW sliderW : ℝ)
    (moves : List (ℝ × ℝ × ℝ)) :
    ∀ (s : TouchSliderJS.TouchState), s.isDirectionDetermined = true →
    (TouchSliderJS.processTouchMoves trackW sliderW s moves).isDirectionDetermined
      = true ∧
    (TouchSliderJS.processTouchMoves trackW sliderW s moves).isHorizontalSwipe
      = s.isHorizontalSwipe := by
  induction moves with
  | nil => intro s hd; exact ⟨hd, rfl⟩
  | cons m ms ih =>
    intro s hd
    have hstep := handleTouchMove_lock_step trackW sliderW s m.1 m.2.1 m.2.2 hd
    have hrec := ih (TouchSliderJS.handleTouchMove trackW sliderW s m.1 m.2.1 m.2.2)
      hstep.1
    exact ⟨hrec.1, hrec.2.trans hstep.2⟩

/-- C4: In every touch session, the gesture direction is resolved from unknown
exactly once — on the first move sample whose absolute displacement from the
start point exceeds the 10px dead zone on either axis — and resolves
horizontal exactly when the displacement ratio `|deltaY|/|deltaX|` is below
`tan 80° ≈ 5.6713` (the source's encoding of "angle below the threshold";
a vertical-only displacement is classified vertical); once resolved, the
classification never changes for the remainder of the session, regardless of
later deltas. -/
theorem direction_lock :
    (∀ (trackW sliderW : ℝ) (s : TouchSliderJS.TouchState) (x y now : ℝ),
      s.isTouching = true → s.isDirectionDetermined = false →
      ¬(|x - s.startX| > 10 ∨ |y - s.startY| > 10) →
      (TouchSliderJS.handleTouchMove trackW sliderW s x y now).isDirectionDetermined
        = false) ∧
    (∀ (trackW sliderW : ℝ) (s : TouchSliderJS.TouchState) (x y now : ℝ),
      s.isTouching = true → s.isDirectionDetermined = false →
      (|x - s.startX| > 10 ∨ |y - s.startY| > 10) →
      (TouchSliderJS.handleTouchMove trackW sliderW s x y now).isDirectionDetermined
        = true ∧
      ((TouchSliderJS.handleTouchMove trackW sliderW s x y now).isHorizontalSwipe
        = true ↔
        (|x - s.startX| ≠ 0 ∧ |y - s.startY| / |x - s.startX| < 5.6713))) ∧
    (∀ (trackW sliderW : ℝ) (s : TouchSliderJS.TouchState)
        (moves : List (ℝ × ℝ × ℝ)), s.isDirectionDetermined = true →
      (TouchSliderJS.processTouchMoves trackW sliderW s moves).isDirectionDetermined
        = true ∧
      (TouchSliderJS.processTouchMoves trackW sliderW s moves).isHorizontalSwipe
        = s.isHorizontalSwipe) := by
  refine ⟨?_, ?_, ?_⟩
  · intro trackW sliderW s x y now ht hd hzone
    simp [TouchSliderJS.handleTouchMove, ht, hd, hzone]
  · intro trackW sliderW s x y now ht hd hzone
    by_cases hzero : |x - s.startX| = 0
    · have hz2 : |y - s.startY| > 10 := by
        rcases hzone with h | h
        · rw [hzero] at h; norm_num at h
        · exact h
      constructor
      · simp [TouchSliderJS.handleTouchMove, ht, hd, hzero, hz2]
      · simp [TouchSliderJS.handleTouchMove, ht, hd, hzero, hz2]
    · by_cases hratio : |y - s.startY| / |x - s.startX| < 5.6713
      · constructor
        · simp [TouchSliderJS.handleTouchMove, ht, hd, hzone, hzero, hratio]
        · simp [TouchSliderJS.handleTouchMove, ht, hd, hzone, hzero, hratio]
      · constructor
        · simp [TouchSliderJS.handleTouchMove, ht, hd, hzone, hzero, hratio]
        · simp [TouchSliderJS.handleTouchMove, ht, hd, hzone, hzero, hratio]
  · intro trackW sliderW s moves hd
    exact processTouchMoves_lock trackW sliderW moves s hd

/-- Witness for C4: a fresh session (touch active, direction unknown, start at
the origin) receiving a move to `(20, 5)` — beyond the dead zone, ratio
`5/20 < 5.6713` — is locked as determined, and locked states stay locked over
any further move list (instantiated with one later vertical move). -/
theorem direction_lock_witness :
    (TouchSliderJS.handleTouchMove 900 300
        ⟨0, 0, 0, 0, true, false, false, false, 0, 0, []⟩
        20 5 0).isDirectionDetermined = true ∧
    ((TouchSliderJS.handleTouchMove 900 300
        ⟨0, 0, 0, 0, true, false, false, false, 0, 0, []⟩
        20 5 0).isHorizontalSwipe = true ↔
      (|(20 : ℝ) - 0| ≠ 0 ∧ |(5 : ℝ) - 0| / |(20 : ℝ) - 0| < 5.6713)) ∧
    (TouchSliderJS.processTouchMoves 900 300
        ⟨0, 0, 20, 5, true, true, true, true, 0, 0, []⟩
        [(20, 300, 16)]).isHorizontalSwipe = true := by
  refine ⟨?_, ?_, ?_⟩
  · exact (direction_lock.2.1 900 300
      ⟨0, 0, 0, 0, true, false, false, false, 0, 0, []⟩ 20 5 0 rfl rfl
      (Or.inl (by norm_num))).1
  · exact (direction_lock.2.1 900 300
      ⟨0, 0, 0, 0, true, false, false, false, 0, 0, []⟩ 20 5 0 rfl rfl
      (Or.inl (by norm_num))).2
  · exact (direction_lock.2.2 900 300
      ⟨0, 0, 20, 5, true, true, true, true, 0, 0, []⟩ [(20, 300, 16)] rfl).2

namespace SliderJS

/-- Real-valued embedding of `slider.js` `trackVelocity(x)` (the angle
classification below forces a real-valued session state). -/
noncomputable def trackVelocityR (positions : List (ℝ × ℝ)) (x now : ℝ) : List (ℝ × ℝ) :=
  (positions ++ [(x, now)]).filter (fun p => now - p.2 < 100)

/-- Real-valued embedding of `slider.js` `calculateVelocity()`. -/
noncomputable def calculateVelocityR (positions : List (ℝ × ℝ)) : ℝ :=
  if positions.length < 2 then 0
  else
    let first := positions.head?.getD (0, 0)
    let last := positions.getLast?.getD (0, 0)
    let dt := last.2 - first.2
    if dt = 0 then 0
    else (last.1 - first.1) / dt

/-- The `slider.js` per-session drag state (`this.state` fields touched by the
touch handlers; `part_000` uses the identical state shape). -/
structure SessionState where
  startTouchX : ℝ
  startTouchY : ℝ
  startTranslate : ℝ
  currentTranslate : ℝ
  isDragging : Bool
  isHorizontal : Option Bool
  positions : List (ℝ × ℝ)

/-- Embedding of `Math.atan2(absY, absX) * 180 / Math.PI` as used by the
classifier: both arguments are absolute values, so only the closed first
quadrant of `atan2` is needed (`π/2` on the positive y-axis, 0 at the
origin). -/
noncomputable def angleDeg (ay ax : ℝ) : ℝ :=
  (if ax = 0 then (if ay = 0 then 0 else Real.pi / 2)
   else Real.arctan (ay / ax)) * 180 / Real.pi

/-- Embedding of the horizontal-drag body of `slider.js` `onTouchMove`:
`translate = startTranslate + deltaX`, edge resistance
`minT + overscroll^0.75` / `maxT - overscroll^0.75` (if/else-if on the raw
translate), then `setTranslate` and `trackVelocity`. -/
noncomputable def applyDrag (minT maxT : ℝ) (s : SessionState)
    (deltaX x now : ℝ) : SessionState :=
  let t0 := s.startTranslate + deltaX
  let t1 := if t0 > minT then minT + (t0 - minT) ^ ((3 : ℝ)/4)
            else if t0 < maxT then maxT - (maxT - t0) ^ ((3 : ℝ)/4)
            else t0
  {s with currentTranslate := t1,
          positions := trackVelocityR s.positions x now}

/-- Embedding of `slider.js` `onTouchMove(e)`.  Note the source's
`if (e.cancelable) e.preventDefault();` only guards the `preventDefault()`
call: the translate update below it runs whether or not the event is
cancelable, so `cancelable` is accepted and unused here. -/
noncomputable def onTouchMove (angleThreshold minT maxT : ℝ)
    (s : SessionState) (x y now : ℝ) (cancelable : Bool) : SessionState :=
  if s.isDragging = false then s
  else
    let deltaX := x - s.startTouchX
    let deltaY := y - s.startTouchY
    match s.isHorizontal with
    | none =>
      if |deltaX| < 10 ∧ |deltaY| < 10 then s
      else if angleDeg |deltaY| |deltaX| < angleThreshold then
        applyDrag minT maxT {s with isHorizontal := some true} deltaX x now
      else {s with isHorizontal := some false, isDragging := false}
    | some true => applyDrag minT maxT s deltaX x now
    | some false => {s with isDragging := false}

/-- Embedding of the session initialisation done by `slider.js`
`onTouchStart(e)`: remembers the touch origin, re-bases `startTranslate` on
the current translate, marks the session dragging with unknown direction and
seeds the velocity history. -/
noncomputable def touchStart (translate x y now : ℝ) : SessionState :=
  { startTouchX := x, startTouchY := y, startTranslate := translate,
    currentTranslate := translate, isDragging := true, isHorizontal := none,
    positions := trackVelocityR [] x now }

/-- Iterating `onTouchMove` over `(x, y, timestamp, cancelable)` samples. -/
noncomputable def runMoves (angleThreshold minT maxT : ℝ) (s : SessionState)
    (moves : List (ℝ × ℝ × ℝ × Bool)) : SessionState :=
  moves.foldl
    (fun st m => onTouchMove angleThreshold minT maxT st m.1 m.2.1 m.2.2.1 m.2.2.2) s

/-- The action taken by `slider.js` `onTouchEnd(e)`. -/
inductive TouchEndAction where
  | idle
  | snapNearest
  | inertia (v : ℝ)

/-- Embedding of `slider.js` `onTouchEnd(e)` as the action it takes: early
exits when not dragging, when the direction was never resolved, or when it
resolved vertical; `snapToNearest()` on `touchcancel`; otherwise inertia with
the estimated velocity (zeroed below 0.05). -/
noncomputable def onTouchEndAction (s : SessionState) (isCancel : Bool) :
    TouchEndAction :=
  if s.isDragging = false then TouchEndAction.idle
  else if s.isHorizontal = none then TouchEndAction.idle
  else if s.isHorizontal = some false then TouchEndAction.idle
  else if isCancel then TouchEndAction.snapNearest
  else TouchEndAction.inertia
    (if |calculateVelocityR s.positions| < 1/20 then 0
     else calculateVelocityR s.positions)

end SliderJS

namespace Part000

/-- Embedding of `part_000` `onTouchMove(e)`: identical to the `slider.js`
handler except that the horizontal branch returns without any state change
when the event is not cancelable ("we MUST NOT move the slider"), and the
edge resistance is the linear `overscroll * 0.25`.  A classification made on
the same event persists even when the move is then dropped. -/
noncomputable def onTouchMove (angleThreshold minT maxT : ℝ)
    (s : SliderJS.SessionState) (x y now : ℝ) (cancelable : Bool) :
    SliderJS.SessionState :=
  if s.isDragging = false then s
  else
    let deltaX := x - s.startTouchX
    let deltaY := y - s.startTouchY
    let horizontalStep : SliderJS.SessionState → SliderJS.SessionState :=
      fun st =>
        if cancelable = false then st
        else
          let t0 := st.startTranslate + deltaX
          let t1 := if t0 > minT then minT + (t0 - minT) * (1/4)
                    else if t0 < maxT then maxT - (maxT - t0) * (1/4)
                    else t0
          {st with currentTranslate := t1,
                   positions := SliderJS.trackVelocityR st.positions x now}
    match s.isHorizontal with
    | none =>
      if |deltaX| < 5 ∧ |deltaY| < 5 then s
      else if SliderJS.angleDeg |deltaY| |deltaX| < angleThreshold then
        horizontalStep {s with isHorizontal := some true}
      else {s with isHorizontal := some false, isDragging := false}
    | some true => horizontalStep s
    | some false => {s with isDragging := false}

end Part000

/-- C6 (code evaluation at the failing input): in a horizontal-locked
`slider.js` session at translate 0 (bounds `min = 1000`, `max = -1000`, so no
resistance interferes), a move to `x = 50` that the platform reports as
*non-cancelable* still writes translate 50 — the offset change is applied even
though native scrolling cannot be suppressed.  The `part_000` handler, whose
source comments call this guard CRITICAL, leaves the offset unchanged on the
same input. -/
theorem nonCancelable_move_still_applies_offset :
    (SliderJS.onTouchMove 65 1000 (-1000)
        ⟨0, 0, 0, 0, true, some true, []⟩ 50 0 10 false).currentTranslate = 50 ∧
    ((50 : ℝ) ≠ 0) ∧
    (Part000.onTouchMove 65 1000 (-1000)
        ⟨0, 0, 0, 0, true, some true, []⟩ 50 0 10 false).currentTranslate = 0 := by
  refine ⟨?_, by norm_num, ?_⟩
  · show (SliderJS.applyDrag 1000 (-1000)
        ⟨0, 0, 0, 0, true, some true, []⟩ (50 - 0) 50 10).currentTranslate = 50
    unfold SliderJS.applyDrag
    norm_num
  · rfl

/-- Helper: one `slider.js` move step never un-classifies a horizontal
session. -/
theorem onTouchMove_horizontal_persist (aT minT maxT : ℝ)
    (s : SliderJS.SessionState) (x y now : ℝ) (c : Bool)
    (h : s.isHorizontal = some true) :
    (SliderJS.onTouchMove aT minT maxT s x y now c).isHorizontal = some true := by
  by_cases hd : s.isDragging = false <;>
    simp [SliderJS.onTouchMove, SliderJS.applyDrag, hd, h]

/-- Helper: a horizontal classification survives any remaining move list. -/
theorem runMoves_horizontal_persist (aT minT maxT : ℝ)
    (moves : List (ℝ × ℝ × ℝ × Bool)) :
    ∀ s : SliderJS.SessionState, s.isHorizontal = some true →
      (SliderJS.runMoves aT minT maxT s moves).isHorizontal = some true := by
  induction moves with
  | nil => intro s h; exact h
  | cons m ms ih =>
    intro s h
    exact ih _ (onTouchMove_horizontal_persist aT minT maxT s m.1 m.2.1
      m.2.2.1 m.2.2.2 h)

/-- Helper: a `slider.js` move step that leaves the session unclassified (or
vertical) does not touch the current translate. -/
theorem onTouchMove_unmoved (aT minT maxT : ℝ) (s : SliderJS.SessionState)
    (x y now : ℝ) (c : Bool)
    (h1 : s.isHorizontal ≠ some true)
    (h2 : (SliderJS.onTouchMove aT minT maxT s x y now c).isHorizontal ≠ some true) :
    (SliderJS.onTouchMove aT minT maxT s x y now c).currentTranslate =
      s.currentTranslate := by
  unfold SliderJS.onTouchMove at h2 ⊢
  by_cases hd : s.isDragging = false
  · rw [if_pos hd]
  · rw [if_neg hd] at h2 ⊢
    cases hh : s.isHorizontal with
    | none =>
      rw [hh] at h2
      by_cases hz : |x - s.startTouchX| < 10 ∧ |y - s.startTouchY| < 10
      · simp only [if_pos hz]
      · by_cases hang : SliderJS.angleDeg |y - s.startTouchY| |x - s.startTouchX| < aT
        · simp only [if_neg hz, if_pos hang, SliderJS.applyDrag] at h2
          exact absurd rfl h2
        · simp only [if_neg hz, if_neg hang]
    | some b =>
      cases b with
      | true => exact absurd hh h1
      | false => rfl

/-- Helper: if a whole session never classifies horizontal, the track offset
is never written. -/
theorem runMoves_unmoved (aT minT maxT : ℝ)
    (moves : List (ℝ × ℝ × ℝ × Bool)) :
    ∀ s : SliderJS.SessionState,
      (SliderJS.runMoves aT minT maxT s moves).isHorizontal ≠ some true →
      s.isHorizontal ≠ some true →
      (SliderJS.runMoves aT minT maxT s moves).currentTranslate =
        s.currentTranslate := by
  induction moves with
  | nil => intro s _ _; rfl
  | cons m ms ih =>
    intro s hfin hs
    have hstep : (SliderJS.onTouchMove aT minT maxT s m.1 m.2.1 m.2.2.1
        m.2.2.2).isHorizontal ≠ some true := by
      intro hcontra
      exact hfin (runMoves_horizontal_persist aT minT maxT ms _ hcontra)
    have hrest := ih (SliderJS.onTouchMove aT minT maxT s m.1 m.2.1 m.2.2.1
      m.2.2.2) hfin hstep
    exact hrest.trans (onTouchMove_unmoved aT minT maxT s m.1 m.2.1 m.2.2.1
      m.2.2.2 hs hstep)

/-- C10: A touch session that ends without ever being classified horizontal (a
tap that never leaves the dead zone, or a gesture classified vertical) leaves
the track offset unchanged from its value at touch-start and starts no
animation: the touch-end handler returns early with no inertia, no snap and no
offset write. -/
theorem unclassified_session_no_motion
    (angleThreshold minT maxT translate x0 y0 t0 : ℝ)
    (moves : List (ℝ × ℝ × ℝ × Bool)) (isCancel : Bool)
    (hnh : (SliderJS.runMoves angleThreshold minT maxT
        (SliderJS.touchStart translate x0 y0 t0) moves).isHorizontal ≠ some true) :
    (SliderJS.runMoves angleThreshold minT maxT
        (SliderJS.touchStart translate x0 y0 t0) moves).currentTranslate =
      translate ∧
    SliderJS.onTouchEndAction
      (SliderJS.runMoves angleThreshold minT maxT
        (SliderJS.touchStart translate x0 y0 t0) moves) isCancel =
      SliderJS.TouchEndAction.idle := by
  constructor
  · exact runMoves_unmoved angleThreshold minT maxT moves
      (SliderJS.touchStart translate x0 y0 t0) hnh (by simp [SliderJS.touchStart])
  · unfold SliderJS.onTouchEndAction
    by_cases hd : (SliderJS.runMoves angleThreshold minT maxT
        (SliderJS.touchStart translate x0 y0 t0) moves).isDragging = false
    · rw [if_pos hd]
    · rw [if_neg hd]
      cases hh : (SliderJS.runMoves angleThreshold minT maxT
          (SliderJS.touchStart translate x0 y0 t0) moves).isHorizontal with
      | none => simp
      | some b =>
        cases b with
        | true => exact absurd hh hnh
        | false => simp

/-- Witness for C10: a session starting at translate 0 whose single move stays
inside the dead zone (`(1, 1)` after 5 ms) is never classified, keeps
translate 0 through touch end, and the touch-end handler takes no action. -/
theorem unclassified_session_no_motion_witness :
    (SliderJS.runMoves 65 0 (-600) (SliderJS.touchStart 0 0 0 0)
        [(1, 1, 5, true)]).isHorizontal ≠ some true ∧
    (SliderJS.runMoves 65 0 (-600) (SliderJS.touchStart 0 0 0 0)
        [(1, 1, 5, true)]).currentTranslate = 0 ∧
    SliderJS.onTouchEndAction
      (SliderJS.runMoves 65 0 (-600) (SliderJS.touchStart 0 0 0 0)
        [(1, 1, 5, true)]) false = SliderJS.TouchEndAction.idle := by
  have hstep : SliderJS.runMoves 65 0 (-600) (SliderJS.touchStart 0 0 0 0)
      [(1, 1, 5, true)] = SliderJS.touchStart 0 0 0 0 := by
    show SliderJS.onTouchMove 65 0 (-600) (SliderJS.touchStart 0 0 0 0)
      1 1 5 true = SliderJS.touchStart 0 0 0 0
    unfold SliderJS.onTouchMove
    rw [if_neg (by simp [SliderJS.touchStart])]
    show (if |(1 : ℝ) - 0| < 10 ∧ |(1 : ℝ) - 0| < 10 then
        SliderJS.touchStart 0 0 0 0
      else if SliderJS.angleDeg |(1 : ℝ) - 0| |(1 : ℝ) - 0| < 65 then _ else _) =
      SliderJS.touchStart 0 0 0 0
    rw [if_pos (by norm_num)]
  have hne : (SliderJS.runMoves 65 0 (-600) (SliderJS.touchStart 0 0 0 0)
      [(1, 1, 5, true)]).isHorizontal ≠ some true := by
    rw [hstep]; simp [SliderJS.touchStart]
  exact ⟨hne,
    (unclassified_session_no_motion 65 0 (-600) 0 0 0 0 [(1, 1, 5, true)] false hne).1,
    (unclassified_session_no_motion 65 0 (-600) 0 0 0 0 [(1, 1, 5, true)] false hne).2⟩

/-- C8 counterexample: the `slider.js`/`part_000` `snapToNearest` on a
zero-slide carousel starts its scan from `slidesGrid[0]`, which is JavaScript
`undefined` (modelled as `none`): the snap target passed to `animateTo` is
undefined, not the identity offset 0, so "every position/snap operation is a
no-op returning the identity offset 0" fails at this concrete input. -/
theorem emptyGrid_snapTarget_undefined :
    Part000.snapToNearest [] 0 0 37 = none ∧
    Part000.snapToNearest [] 0 0 37 ≠ some (0, 0) := by
  exact ⟨rfl, by simp [Part000.snapToNearest]⟩

/-- C8 (amended): when the carousel has zero slides the slide grid is empty,
and `TouchSlider.js` `findNearestSlide` is a total no-op returning the
identity `(index 0, offset 0)`; the `slider.js`/`part_000` `snapToNearest`,
however, yields an undefined snap target (`none`) rather than the identity
offset 0. -/
theorem emptyGrid_amended :
    (∀ (C offset : ℚ), SliderJS.slidesGrid C [] offset = []) ∧
    (∀ (trackW sliderW : ℚ) (center : Bool) (ci : ℕ) (vm cp v : ℚ),
      TouchSliderJS.findNearestSlide trackW sliderW center [] ci vm cp v = (0, 0)) ∧
    (∀ minT maxT s : ℚ, Part000.snapToNearest [] minT maxT s = none) := by
  refine ⟨fun C offset => rfl, fun trackW sliderW center ci vm cp v => rfl,
    fun minT maxT s => rfl⟩
